import Mathlib

/-!
Verification development for the network-monitor-agent repository.

Shallow embedding notes:
* Python dicts with a fixed set of accessed keys are modelled as Lean
  structures whose fields are `Option`-valued (`none` = key missing or
  value `None`); `dict.get(k, d)` is modelled by `Option.getD`.
* `time.time()` timestamps are modelled as `Int` seconds (floats are not
  modelled; all comparisons in the source are order comparisons).
* External side effects (`subprocess.run`, `os.listdir`, HTTP posts) are
  modelled by an `Effect` trace emitted by each operation, and the results
  of those external calls are supplied by an `ExecEnv` oracle record, one
  field per call site of the source.
-/

namespace NetMon

/-- Mount configuration dict, as read by `remount` / `unmount_remount`
(`mount_config.get('path'/'source'/'type'/'options')` in
src/remediation/actions.py). -/
structure MountConfig where
  path : Option String := none
  source : Option String := none
  mtype : Option String := none
  options : Option String := none
deriving DecidableEq

/-- The `action_params` dict, one field per key the executor reads
(src/remediation/actions.py). A missing key is `none`. -/
structure Params where
  service : Option String := none
  ptype : Option String := none
  pid : Option Int := none
  container : Option String := none
  partition : Option String := none
  mount_config : Option MountConfig := none
  entity_id : Option String := none
  url : Option String := none
  token : Option String := none
  friendly_name : Option String := none
  integration_id : Option String := none
  title : Option String := none
deriving DecidableEq

/-- An action dict as produced by the decision engine and consumed by
`execute_action` and `run_monitoring_cycle` (keys read via `.get`). -/
structure Action where
  issue : Option String := none
  severity : Option String := none
  root_cause : Option String := none
  action : Option String := none
  action_params : Params := {}
  reasoning : Option String := none
deriving DecidableEq

/-- Python truthiness of an optional string: `None` and `""` are falsy. -/
def falsyS (o : Option String) : Prop := o = none ∨ o = some ""

instance (o : Option String) : Decidable (falsyS o) := by
  unfold falsyS; infer_instance

/-- Python truthiness of an optional int: `None` and `0` are falsy. -/
def falsyI (o : Option Int) : Prop := o = none ∨ o = some 0

instance (o : Option Int) : Decidable (falsyI o) := by
  unfold falsyI; infer_instance

/-- Python `f"{x}"` on an `Option String` value (`None` prints as `"None"`). -/
def pyStr (o : Option String) : String :=
  match o with
  | none => "None"
  | some s => s

/-- One external side effect performed by a remediation operation. -/
inductive Effect where
  | runCmd (args : List String)
  | sleep (secs : Nat)
  | listDir (path : String)
  | httpPost (url : String)
deriving DecidableEq

/-- Oracle for the results of the external calls an operation makes:
one field per call site in src/remediation/actions.py. -/
structure ExecEnv where
  svcListStdout : String := ""
  svcRestartRc : Int := 0
  svcRestartStderr : String := ""
  svcIsActiveStdout : String := ""
  cacheRc : Int := 0
  cacheStderr : String := ""
  psFirstRc : Int := 0
  killRc : Int := 0
  psSecondRc : Int := 0
  kill9Rc : Int := 0
  dockerWhichRc : Int := 0
  dockerRestartRc : Int := 0
  dockerStderr : String := ""
  remountRc : Int := 0
  remountStderr : String := ""
  remountListDirOk : Bool := true
  mountRc : Int := 0
  mountStderr : String := ""
  mountListDirOk : Bool := true
  aptExists : Bool := false
  haStatus : Int := 200
  haReloadStatus : Int := 200

/-- `needle in hay` on Python strings (substring test). -/
def strContains (hay needle : String) : Bool :=
  decide (needle.toList <:+: hay.toList)

/-- An apostrophe, for building the Home Assistant result messages. -/
def sq : String := String.singleton (Char.ofNat 39)

/-- `RemediationActions.restart_service` (src/remediation/actions.py). -/
def restart_service (env : ExecEnv) (svc : Option String) :
    Bool × String × List Effect :=
  if falsyS svc then (false, "No service name provided", [])
  else
    let s := svc.getD ""
    let e1 := Effect.runCmd ["systemctl", "list-unit-files", s ++ ".service"]
    if strContains env.svcListStdout s then
      let e2 := Effect.runCmd ["sudo", "systemctl", "restart", s]
      if env.svcRestartRc = 0 then
        let e3 := Effect.runCmd ["systemctl", "is-active", s]
        if env.svcIsActiveStdout.trim = "active" then
          (true, "Successfully restarted " ++ s, [e1, e2, Effect.sleep 2, e3])
        else
          (false, "Service " ++ s ++ " restarted but not active",
            [e1, e2, Effect.sleep 2, e3])
      else
        (false, "Failed to restart " ++ s ++ ": " ++ env.svcRestartStderr, [e1, e2])
    else (false, "Service " ++ s ++ " not found", [e1])

/-- `RemediationActions.clear_cache` (src/remediation/actions.py). -/
def clear_cache (env : ExecEnv) (cache_type : String) :
    Bool × String × List Effect :=
  if cache_type = "system" then
    let e := Effect.runCmd ["sudo", "sh", "-c", "sync; echo 3 > /proc/sys/vm/drop_caches"]
    if env.cacheRc = 0 then (true, "System cache cleared successfully", [e])
    else (false, "Failed to clear cache: " ++ env.cacheStderr, [e])
  else (false, "Unknown cache type: " ++ cache_type, [])

/-- `RemediationActions.kill_process` (src/remediation/actions.py). -/
def kill_process (env : ExecEnv) (pid : Option Int) :
    Bool × String × List Effect :=
  if falsyI pid then (false, "No PID provided", [])
  else
    let p := toString (pid.getD 0)
    let e1 := Effect.runCmd ["ps", "-p", p]
    if env.psFirstRc = 0 then
      let e2 := Effect.runCmd ["kill", p]
      let e3 := Effect.runCmd ["ps", "-p", p]
      if env.psSecondRc = 0 then
        let e4 := Effect.runCmd ["kill", "-9", p]
        if env.kill9Rc = 0 then
          (true, "Force killed process " ++ p, [e1, e2, Effect.sleep 2, e3, e4])
        else (false, "Failed to kill process " ++ p, [e1, e2, Effect.sleep 2, e3, e4])
      else (true, "Successfully terminated process " ++ p, [e1, e2, Effect.sleep 2, e3])
    else (false, "Process " ++ p ++ " not found", [e1])

/-- `RemediationActions.restart_container` (src/remediation/actions.py). -/
def restart_container (env : ExecEnv) (name : Option String) :
    Bool × String × List Effect :=
  if falsyS name then (false, "No container name provided", [])
  else
    let n := name.getD ""
    let e1 := Effect.runCmd ["which", "docker"]
    if env.dockerWhichRc = 0 then
      let e2 := Effect.runCmd ["docker", "restart", n]
      if env.dockerRestartRc = 0 then
        (true, "Successfully restarted container " ++ n, [e1, e2])
      else (false, "Failed to restart container: " ++ env.dockerStderr, [e1, e2])
    else (false, "Docker not found on system", [e1])

/-- `RemediationActions.clear_disk_space` (src/remediation/actions.py):
best-effort cleanup steps, always reports success. -/
def clear_disk_space (env : ExecEnv) (partition : Option String) :
    Bool × String × List Effect :=
  let p := match partition with
    | none => "/"
    | some s => if s = "" then "/" else s
  let tmpEffs := if p = "/" ∨ p.startsWith "/tmp" then
      [Effect.runCmd ["sudo", "find", "/tmp", "-type", "f", "-atime", "+7", "-delete"],
       Effect.runCmd ["sudo", "find", "/var/tmp", "-type", "f", "-atime", "+7", "-delete"]]
    else []
  let journalEffs := if p = "/" ∨ p.startsWith "/var" then
      [Effect.runCmd ["sudo", "journalctl", "--vacuum-time=7d"]] else []
  let aptEffs := if (p = "/" ∨ p.startsWith "/var") ∧ env.aptExists then
      [Effect.runCmd ["sudo", "apt-get", "clean"]] else []
  let logEffs := if p = "/" ∨ p.startsWith "/var" then
      [Effect.runCmd ["sudo", "find", "/var/log", "-type", "f", "-name",
        "*.log.*", "-mtime", "+30", "-delete"]] else []
  (true, "Disk cleanup completed for " ++ p, tmpEffs ++ journalEffs ++ aptEffs ++ logEffs)

/-- `RemediationActions.remount` (src/remediation/actions.py). -/
def remount (env : ExecEnv) (mc : Option MountConfig) :
    Bool × String × List Effect :=
  match mc with
  | none => (false, "No mount configuration provided", [])
  | some c =>
    if falsyS c.path then (false, "No mount path specified", [])
    else
      let mp := c.path.getD ""
      let e1 := Effect.runCmd ["sudo", "mount", "-o", "remount", mp]
      if env.remountRc = 0 then
        if env.remountListDirOk then
          (true, "Successfully remounted " ++ mp, [e1, Effect.sleep 2, Effect.listDir mp])
        else
          (false, "Remount command succeeded but " ++ mp ++ " still not accessible",
            [e1, Effect.sleep 2, Effect.listDir mp])
      else (false, "Failed to remount " ++ mp ++ ": " ++ env.remountStderr, [e1])

/-- `RemediationActions.unmount_remount` (src/remediation/actions.py). -/
def unmount_remount (env : ExecEnv) (mc : Option MountConfig) :
    Bool × String × List Effect :=
  match mc with
  | none => (false, "No mount configuration provided", [])
  | some c =>
    if falsyS c.path ∨ falsyS c.source then
      (false, "Mount configuration missing path or source", [])
    else
      let mp := c.path.getD ""
      let src := c.source.getD ""
      let mtype := c.mtype.getD "auto"
      let mopts := c.options.getD "defaults"
      let e1 := Effect.runCmd ["sudo", "umount", "-f", mp]
      let mountCmd := ["sudo", "mount"] ++
        (if mtype ≠ "auto" then ["-t", mtype] else []) ++
        (if mopts ≠ "defaults" then ["-o", mopts] else []) ++ [src, mp]
      let e2 := Effect.runCmd mountCmd
      if env.mountRc = 0 then
        if env.mountListDirOk then
          (true, "Successfully unmounted and remounted " ++ mp,
            [e1, Effect.sleep 2, e2, Effect.sleep 2, Effect.listDir mp])
        else
          (false, "Mount command succeeded but " ++ mp ++ " still not accessible",
            [e1, Effect.sleep 2, e2, Effect.sleep 2, Effect.listDir mp])
      else
        (false, "Failed to mount " ++ mp ++ ": " ++ env.mountStderr,
          [e1, Effect.sleep 2, e2])

/-- `RemediationActions.enable_automation` (src/remediation/actions.py). -/
def enable_automation (env : ExecEnv) (p : Params) :
    Bool × String × List Effect :=
  if falsyS p.entity_id ∨ falsyS p.url ∨ falsyS p.token then
    (false, "Missing required parameters (entity_id, url, token)", [])
  else
    let eid := p.entity_id.getD ""
    let u := p.url.getD ""
    let fname := (p.friendly_name.getD eid)
    let eff := Effect.httpPost (u ++ "/api/services/automation/turn_on")
    if env.haStatus = 200 then
      (true, "Successfully enabled automation " ++ sq ++ fname ++ sq, [eff])
    else
      (false, "Failed to enable automation: HTTP " ++ toString env.haStatus, [eff])

/-- `RemediationActions.reload_integration` (src/remediation/actions.py). -/
def reload_integration (env : ExecEnv) (p : Params) :
    Bool × String × List Effect :=
  if falsyS p.integration_id ∨ falsyS p.url ∨ falsyS p.token then
    (false, "Missing required parameters (integration_id, url, token)", [])
  else
    let iid := p.integration_id.getD ""
    let u := p.url.getD ""
    let t := (p.title.getD iid)
    let eff := Effect.httpPost (u ++ "/api/config/config_entries/entry/" ++ iid ++ "/reload")
    if env.haReloadStatus = 200 ∨ env.haReloadStatus = 204 then
      (true, "Successfully reloaded integration " ++ sq ++ t ++ sq, [eff])
    else
      (false, "Failed to reload integration: HTTP " ++ toString env.haReloadStatus, [eff])

/-- Executor configuration: `max_attempts` and `cooldown` from
`RemediationActions.__init__` (defaults 3 and 300). -/
structure RemCfg where
  max_attempts : Nat := 3
  cooldown : Int := 300

/-- The attempt ledger `self.attempt_history`: maps the cooldown key
`f"{action_type}_{str(params)}"` — modelled as the pair
`(action_type, params)` — to `(last_attempt_time, consecutive_count)`. -/
def AttemptHistory : Type := (Option String × Params) → Option (Int × Nat)

/-- The cooldown key of an action (`f"{action_type}_{str(params)}"`),
modelled as the pair of the two values the formatted string is built from. -/
def cooldownKey (a : Action) : Option String × Params :=
  (a.action, a.action_params)

/-- `RemediationActions._check_cooldown` (src/remediation/actions.py):
`true` = allowed to proceed, `false` = blocked. -/
def check_cooldown (cfg : RemCfg) (h : AttemptHistory) (now : Int)
    (key : Option String × Params) : Bool :=
  match h key with
  | some (last, count) =>
    if cfg.max_attempts ≤ count ∧ now - last < cfg.cooldown then false else true
  | none => true

/-- `RemediationActions._record_attempt` (src/remediation/actions.py). -/
def record_attempt (cfg : RemCfg) (h : AttemptHistory) (now : Int)
    (key : Option String × Params) : AttemptHistory :=
  fun k =>
    if k = key then
      match h key with
      | some (last, count) =>
        if now - last < cfg.cooldown then some (now, count + 1) else some (now, 1)
      | none => some (now, 1)
    else h k

/-- The if/elif dispatch chain of `RemediationActions.execute_action`
(src/remediation/actions.py lines 30-62): matches `action.get('action')`
against the fixed kind strings in source order; anything else is the
unknown-action failure. -/
def dispatch_action (env : ExecEnv) (a : Action) : Bool × String × List Effect :=
  let p := a.action_params
  if a.action = some "restart_service" then restart_service env p.service
  else if a.action = some "clear_cache" then clear_cache env (p.ptype.getD "system")
  else if a.action = some "kill_hung_process" then kill_process env p.pid
  else if a.action = some "restart_container" then restart_container env p.container
  else if a.action = some "clear_disk_space" then clear_disk_space env p.partition
  else if a.action = some "remount" then remount env p.mount_config
  else if a.action = some "unmount_remount" then unmount_remount env p.mount_config
  else if a.action = some "enable_automation" then enable_automation env p
  else if a.action = some "reload_integration" then reload_integration env p
  else if a.action = some "alert_only" then (true, "Alert only - no action taken", [])
  else (false, "Unknown action type: " ++ pyStr a.action, [])

/-- `RemediationActions.execute_action` (src/remediation/actions.py):
cooldown gate (blocked calls fail immediately, mutate nothing and perform
no effect), then attempt recording, then the dispatch chain.
Returns (success, message, updated ledger, external effects performed). -/
def execute_action (cfg : RemCfg) (env : ExecEnv) (h : AttemptHistory)
    (now : Int) (a : Action) : Bool × String × AttemptHistory × List Effect :=
  let key := cooldownKey a
  if check_cooldown cfg h now key = false then
    (false, "Action " ++ pyStr a.action ++ " in cooldown period", h, [])
  else
    let r := dispatch_action env a
    (r.1, r.2.1, record_attempt cfg h now key, r.2.2)

/-- The fixed set of action kinds `execute_action` dispatches on. -/
def knownKinds : List String :=
  ["restart_service", "clear_cache", "kill_hung_process", "restart_container",
   "clear_disk_space", "remount", "unmount_remount", "enable_automation",
   "reload_integration", "alert_only"]

/-- A HealthRecord dict, one field per key the decision engine and the
cycle read (`healthy`, `metric`, `message`, `service`, `value`,
`partition`, `issue`, `config`). A missing key is `none`. -/
structure HealthRecord where
  healthy : Option Bool := none
  metric : Option String := none
  message : Option String := none
  service : Option String := none
  value : Option Int := none
  partition : Option String := none
  issue : Option String := none
  config : Option MountConfig := none
deriving DecidableEq

/-- The unhealthy filter `not r.get('healthy', True)` used by both
`DecisionEngine.analyze_issues` and `run_monitoring_cycle`. -/
def is_issue (r : HealthRecord) : Bool := !(r.healthy.getD true)

/-- One record's worth of `DecisionEngine._fallback_analysis`
(src/ai/decision_engine.py): the body of the per-issue loop, an
if/elif chain appending at most one action dict for this record. -/
def fallback_for (allowed : List String) (r : HealthRecord) : List Action :=
  if r.metric = some "service_status" ∧ "restart_service" ∈ allowed then
    [{ issue := r.message, severity := some "high",
       root_cause := some "Service is not running",
       action := some "restart_service",
       action_params := { service := r.service },
       reasoning := some "Service is inactive, attempting restart" }]
  else if r.metric = some "disk_usage" ∧ 90 < r.value.getD 0 ∧ "clear_disk_space" ∈ allowed then
    [{ issue := r.message, severity := some "high",
       root_cause := some "Disk space critically low",
       action := some "clear_disk_space",
       action_params := { partition := r.partition },
       reasoning := some "Clear temporary files and logs to free disk space" }]
  else if r.metric = some "network_ping" then
    [{ issue := r.message, severity := some "medium",
       root_cause := some "Network connectivity issue",
       action := some "alert_only", action_params := {},
       reasoning := some "Network issues require investigation" }]
  else if r.metric = some "web_endpoint" then
    [{ issue := r.message, severity := some "high",
       root_cause := some "Web service not responding",
       action := some "alert_only", action_params := {},
       reasoning := some "Endpoint check required before automated action" }]
  else if r.metric = some "mount_status" then
    if r.issue = some "stale_mount" ∧ "remount" ∈ allowed then
      [{ issue := r.message, severity := some "high",
         root_cause := some "Stale or hung mount (common with NFS)",
         action := some "remount",
         action_params := { mount_config := r.config },
         reasoning := some "Remount to recover stale NFS/network mount" }]
    else if r.issue = some "not_mounted" ∧ "unmount_remount" ∈ allowed then
      [{ issue := r.message, severity := some "high",
         root_cause := some "Mount not active",
         action := some "unmount_remount",
         action_params := { mount_config := r.config },
         reasoning := some "Unmount and remount to restore mount" }]
    else
      [{ issue := r.message, severity := some "high",
         root_cause := some "Mount issue",
         action := some "alert_only", action_params := {},
         reasoning := some "Mount requires investigation" }]
  else []

/-- `DecisionEngine._fallback_analysis` (src/ai/decision_engine.py):
the per-issue loop, appending each record's actions in order. -/
def fallback_analysis (issues : List HealthRecord) (allowed : List String) :
    List Action :=
  issues.foldr (fun r acc => fallback_for allowed r ++ acc) []

/-- A decoded JSON value (the possible results of `json.loads`). -/
inductive Json where
  | jnull
  | jbool (b : Bool)
  | jnum (n : Int)
  | jstr (s : String)
  | jarr (xs : List Json)
  | jobj (kvs : List (String × Json))

/-- JSON encoding of an `Option String` dict value (`None` → null). -/
def jStrOpt (o : Option String) : Json :=
  match o with
  | none => Json.jnull
  | some s => Json.jstr s

/-- JSON encoding of a mount-config dict (present keys only). -/
def MountConfig.toJson (c : MountConfig) : Json :=
  Json.jobj
    ((match c.path with | none => [] | some s => [("path", Json.jstr s)]) ++
     (match c.source with | none => [] | some s => [("source", Json.jstr s)]) ++
     (match c.mtype with | none => [] | some s => [("type", Json.jstr s)]) ++
     (match c.options with | none => [] | some s => [("options", Json.jstr s)]))

/-- JSON encoding of an `action_params` dict (present keys only). -/
def Params.toJson (p : Params) : Json :=
  Json.jobj
    ((match p.service with | none => [] | some s => [("service", Json.jstr s)]) ++
     (match p.partition with | none => [] | some s => [("partition", Json.jstr s)]) ++
     (match p.mount_config with
      | none => [] | some c => [("mount_config", MountConfig.toJson c)]))

/-- JSON encoding of an action dict (the six keys every fallback dict has). -/
def Action.toJson (a : Action) : Json :=
  Json.jobj
    [("issue", jStrOpt a.issue), ("severity", jStrOpt a.severity),
     ("root_cause", jStrOpt a.root_cause), ("action", jStrOpt a.action),
     ("action_params", Params.toJson a.action_params),
     ("reasoning", jStrOpt a.reasoning)]

/-- `DecisionEngine._parse_ai_response` (src/ai/decision_engine.py).
The fence-stripping and `json.loads` of the backend's text are modelled
by the `decoded` argument: `none` is a `json.JSONDecodeError` (caught,
yielding `[]`), `some v` the decoded value; a non-list value is
normalized into a one-element list. -/
def parse_ai_response (decoded : Option Json) : List Json :=
  match decoded with
  | none => []
  | some (Json.jarr xs) => xs
  | some v => [v]

/-- `DecisionEngine.analyze_issues` (src/ai/decision_engine.py).
The single backend call of the `try` block is modelled by the `backend`
argument: `.error ()` is the call raising (→ fallback rule engine),
`.ok decoded` a response whose decoding outcome is `decoded`. -/
def analyze_issues (results : List HealthRecord) (allowed : List String)
    (backend : Except Unit (Option Json)) : List Json :=
  let issues := results.filter is_issue
  if issues.isEmpty then []
  else
    match backend with
    | .ok decoded => parse_ai_response decoded
    | .error _ => (fallback_analysis issues allowed).map Action.toJson

/-- `AgentController.max_history` (src/discord_bot/agent_controller.py). -/
def max_history : Nat := 100

/-- One entry of `AgentController.issues_history`. -/
structure HistEntry where
  timestamp : Int
  issues : List HealthRecord
  actions : List Action
deriving DecidableEq

/-- `AgentController.add_to_history` (src/discord_bot/agent_controller.py):
append only when `issues` is truthy (non-empty), then trim to the last
`max_history` entries (`self.issues_history[-self.max_history:]`). -/
def add_to_history (hist : List HistEntry) (issues : List HealthRecord)
    (actions : List Action) (ts : Int) : List HistEntry :=
  if issues.isEmpty then hist
  else
    let h2 := hist ++ [⟨ts, issues, actions⟩]
    h2.drop (h2.length - max_history)

/-- `NetworkMonitorAgent.daily_stats` (src/main.py). -/
structure DailyStats where
  total_checks : Nat := 0
  issues_found : Nat := 0
  actions_taken : Nat := 0
  systems_healthy : Nat := 0
  systems_total : Nat := 0
deriving DecidableEq

/-- The agent state touched by `run_monitoring_cycle`: daily stats, the
controller's bounded history, the executor's attempt ledger and the
`auto_fix` flag. (This models the bot-enabled configuration, in which the
`AgentController` exists and `add_to_history` is reached.) -/
structure AgentState where
  daily : DailyStats
  history : List HistEntry
  attempts : AttemptHistory
  auto_fix : Bool

/-- The inputs one cycle consumes from the outside world: the monitors'
concatenated results, the outcome of the `analyze_issues` call (`.error`
models the call raising, caught at the cycle boundary), the executor's
external-call oracle and the current time. -/
structure CycleInput where
  results : List HealthRecord
  decision : Except Unit (List Action)
  env : ExecEnv
  now : Int

/-- Observable notifications emitted during a cycle
(`notify_system_healthy`, `notify_issue_detected`,
`notify_critical_issue`, `notify_action_taken`). An `actionTaken` event
also marks that the action was passed to the remediation executor. -/
inductive CycleEvent where
  | systemHealthy
  | issueDetected (issues : List HealthRecord)
  | criticalIssue (a : Action)
  | actionTaken (a : Action) (ok : Bool) (msg : String)

/-- Accumulator of the per-action loop of `run_monitoring_cycle`. -/
structure ExecOut where
  attempts : AttemptHistory
  taken : Nat
  executed : List Action
  events : List CycleEvent

/-- The per-action loop of `run_monitoring_cycle` (src/main.py lines
206-225): `alert_only` actions and all actions when `auto_fix` is off go
to `notify_critical_issue` and are skipped; the rest are passed to
`execute_action`, their outcome notified, and successful ones counted
and collected into `executed_actions`. -/
def exec_phase (cfg : RemCfg) (env : ExecEnv) (now : Int) (auto_fix : Bool) :
    AttemptHistory → List Action → ExecOut
  | h, [] => ⟨h, 0, [], []⟩
  | h, a :: rest =>
    if a.action.getD "unknown" = "alert_only" ∨ auto_fix = false then
      let o := exec_phase cfg env now auto_fix h rest
      ⟨o.attempts, o.taken, o.executed, CycleEvent.criticalIssue a :: o.events⟩
    else
      let r := execute_action cfg env h now a
      let o := exec_phase cfg env now auto_fix r.2.2.1 rest
      ⟨o.attempts, (if r.1 then o.taken + 1 else o.taken),
       (if r.1 then a :: o.executed else o.executed),
       CycleEvent.actionTaken a r.1 r.2.1 :: o.events⟩

/-- `NetworkMonitorAgent.run_monitoring_cycle` (src/main.py): counts the
check, partitions results, returns after a healthy notification when
there is no issue; otherwise notifies the issues, consumes the decision
outcome (an exception or an empty action list records the issues with no
actions), runs the per-action loop and records the cycle in the bounded
history. -/
def run_monitoring_cycle (cfg : RemCfg) (st : AgentState) (inp : CycleInput) :
    AgentState × List CycleEvent :=
  let d1 := { st.daily with total_checks := st.daily.total_checks + 1 }
  let issues := inp.results.filter is_issue
  let d2 := { d1 with
    systems_total := inp.results.length,
    systems_healthy := (inp.results.filter fun r => r.healthy.getD true).length }
  if issues.isEmpty then
    ({ st with daily := d2 }, [CycleEvent.systemHealthy])
  else
    let d3 := { d2 with issues_found := d2.issues_found + issues.length }
    match inp.decision with
    | .error _ =>
      ({ st with
          daily := d3
          history := add_to_history st.history issues [] inp.now },
       [CycleEvent.issueDetected issues])
    | .ok actions =>
      if actions.isEmpty then
        ({ st with
            daily := d3
            history := add_to_history st.history issues [] inp.now },
         [CycleEvent.issueDetected issues])
      else
        let o := exec_phase cfg inp.env inp.now st.auto_fix st.attempts actions
        ({ st with
            daily := { d3 with actions_taken := d3.actions_taken + o.taken }
            history := add_to_history st.history issues o.executed inp.now
            attempts := o.attempts },
         CycleEvent.issueDetected issues :: o.events)

/-- The dict returned by `AgentController.run_manual_check`. -/
structure ManualResult where
  success : Bool
  issues : List HealthRecord
  actions : List Action
  message : String

/-- `AgentController.run_manual_check` (src/discord_bot/agent_controller.py):
forces a cycle, then reads `self.issues_history[-1]` (if any) and returns
that entry's issues and actions. -/
def run_manual_check (cfg : RemCfg) (st : AgentState) (inp : CycleInput) :
    ManualResult × AgentState × List CycleEvent :=
  let c := run_monitoring_cycle cfg st inp
  match c.1.history.getLast? with
  | some e =>
    ({ success := true, issues := e.issues, actions := e.actions,
       message := "Check complete. Found " ++ toString e.issues.length ++
         " issue(s), took " ++ toString e.actions.length ++ " action(s)." },
     c.1, c.2)
  | none =>
    ({ success := true, issues := [], actions := [],
       message := "Check complete. No issues found." }, c.1, c.2)

/-- Number of successful-execution notifications in an event trace. -/
def succ_count (evs : List CycleEvent) : Nat :=
  (evs.filter fun e =>
    match e with
    | CycleEvent.actionTaken _ true _ => true
    | _ => false).length

/-! Concrete fixtures used by witnesses and counterexamples. -/

/-- Default remediation config: `max_attempts = 3`, `cooldown = 300`. -/
def cfg3 : RemCfg := {}

/-- Default external-call oracle. -/
def env0 : ExecEnv := {}

/-- The empty attempt ledger. -/
def h0 : AttemptHistory := fun _ => none

/-- A bare `alert_only` action. -/
def alertAct : Action := { action := some "alert_only" }

/-- An unhealthy `network_ping` record. -/
def recPing : HealthRecord :=
  { healthy := some false, metric := some "network_ping",
    message := some "ping failed" }

/-- A healthy record. -/
def recGood : HealthRecord := { healthy := some true, metric := some "network_ping" }

/-- Scenario A record: nginx service down. -/
def recNginx : HealthRecord :=
  { healthy := some false, metric := some "service_status",
    message := some "nginx inactive", service := some "nginx" }

/-- A ledger in which the `alert_only` key has just exhausted its attempts. -/
def hBlockAlert : AttemptHistory :=
  fun k => if k = (some "alert_only", ({} : Params)) then some (0, 3) else none

/-- Ledger after one `alert_only` execution at time 0 from empty. -/
def h1 : AttemptHistory := (execute_action cfg3 env0 h0 0 alertAct).2.2.1

/-- Ledger after a second `alert_only` execution at time 100. -/
def h2 : AttemptHistory := (execute_action cfg3 env0 h1 100 alertAct).2.2.1

/-- Ledger after a third `alert_only` execution at time 200. -/
def h3 : AttemptHistory := (execute_action cfg3 env0 h2 200 alertAct).2.2.1

/-- An action with a kind outside the fixed dispatch set. -/
def bogusAct : Action := { action := some "bogus" }

/-- A pre-existing history entry from an earlier cycle. -/
def staleEntry : HistEntry := ⟨0, [recPing], []⟩

/-- Agent state whose bounded history holds one earlier entry. -/
def stStale : AgentState :=
  { daily := {}, history := [staleEntry], attempts := h0, auto_fix := true }

/-- A cycle input whose monitors report only healthy records. -/
def inpHealthy : CycleInput :=
  { results := [recGood], decision := .ok [], env := env0, now := 50 }

/-- A fresh agent state with auto-fix enabled. -/
def stW : AgentState :=
  { daily := {}, history := [], attempts := h0, auto_fix := true }

/-- A cycle input with one unhealthy record and two decided actions. -/
def inpW : CycleInput :=
  { results := [recPing], decision := .ok [alertAct, bogusAct],
    env := env0, now := 0 }

/-! Theorems. -/

/-- Appending through `add_to_history` preserves the capacity bound. -/
theorem add_to_history_length_le (hist : List HistEntry)
    (issues : List HealthRecord) (actions : List Action) (ts : Int)
    (hl : hist.length ≤ max_history) :
    (add_to_history hist issues actions ts).length ≤ max_history := by
  unfold add_to_history
  split
  · exact hl
  · simp only [List.length_drop, List.length_append, List.length_singleton]
    omega

/-- C8: the history never holds more than 100 entries (`max_history`);
an append keeps `min (n+1) 100` entries and the survivors are a suffix of
the appended list, so the oldest entry is the one evicted and FIFO order
is preserved; any sequence of appends from the empty history stays within
capacity. -/
theorem history_capacity_fifo :
    (∀ (hist : List HistEntry) issues actions ts, hist.length ≤ max_history →
        (add_to_history hist issues actions ts).length ≤ max_history) ∧
    (∀ (hist : List HistEntry) issues actions ts, issues ≠ [] →
        (add_to_history hist issues actions ts).length =
          min (hist.length + 1) max_history ∧
        add_to_history hist issues actions ts <:+ hist ++ [⟨ts, issues, actions⟩]) ∧
    (∀ ops : List (Int × List HealthRecord × List Action),
        (ops.foldl (fun h o => add_to_history h o.2.1 o.2.2 o.1) []).length ≤
          max_history) := by
  refine ⟨fun hist i a ts hl => add_to_history_length_le hist i a ts hl,
    fun hist i a ts hne => ?_, fun ops => ?_⟩
  · have he : i.isEmpty = false := by
      cases i with
      | nil => exact absurd rfl hne
      | cons x xs => rfl
    unfold add_to_history
    rw [if_neg (by simp [he])]
    constructor
    · simp only [List.length_drop, List.length_append, List.length_singleton]
      omega
    · exact List.drop_suffix _ _
  · suffices hgen : ∀ (os : List (Int × List HealthRecord × List Action))
        (hist : List HistEntry), hist.length ≤ max_history →
        (os.foldl (fun h o => add_to_history h o.2.1 o.2.2 o.1) hist).length ≤
          max_history by
      exact hgen ops [] (by simp [max_history])
    intro os
    induction os with
    | nil => intro hist hl; simpa using hl
    | cons o rest ih =>
      intro hist hl
      simp only [List.foldl_cons]
      exact ih _ (add_to_history_length_le _ _ _ _ hl)

/-- C8 witness: appending one entry to the empty history yields one entry,
a suffix of the appended list. -/
theorem history_capacity_fifo_witness :
    (add_to_history [] [recPing] [] 0).length =
      min (List.length ([] : List HistEntry) + 1) max_history ∧
    add_to_history [] [recPing] [] 0 <:+
      [] ++ [⟨0, [recPing], []⟩] :=
  history_capacity_fifo.2.1 [] [recPing] [] 0 (by simp)

/-- C9: `add_to_history` appends only when the issues list is non-empty,
so every stored entry has a non-empty issues list; and a cycle whose
results contain no unhealthy record leaves the history unchanged. -/
theorem history_only_nonempty_issues :
    (∀ (hist : List HistEntry) issues actions ts,
        (∀ e ∈ hist, e.issues ≠ []) →
        ∀ e ∈ add_to_history hist issues actions ts, e.issues ≠ []) ∧
    (∀ cfg st inp, inp.results.filter is_issue = [] →
        (run_monitoring_cycle cfg st inp).1.history = st.history) := by
  constructor
  · intro hist i a ts hinv e he
    unfold add_to_history at he
    split at he
    · exact hinv e he
    · rename_i hc
      have hi : i ≠ [] := by
        intro h
        exact hc (by simp [h])
      rcases List.mem_append.1 (List.mem_of_mem_drop he) with hmem | hmem
      · exact hinv e hmem
      · have : e = ⟨ts, i, a⟩ := by simpa using hmem
        rw [this]
        exact hi
  · intro cfg st inp hfilter
    simp [run_monitoring_cycle, hfilter]

/-- C9 witness: the single appended entry has non-empty issues, and the
all-healthy cycle input leaves the stale history untouched. -/
theorem history_only_nonempty_issues_witness :
    (⟨0, [recPing], []⟩ : HistEntry).issues ≠ [] ∧
    (run_monitoring_cycle cfg3 stStale inpHealthy).1.history = stStale.history :=
  ⟨history_only_nonempty_issues.1 [] [recPing] [] 0 (by simp) _ (by decide),
   history_only_nonempty_issues.2 cfg3 stStale inpHealthy (by decide)⟩

/-- C3: `execute_action` is blocked if and only if the ledger holds a
record for the action's key with `consecutive_count ≥ max_attempts` and
`now - last_attempt_time < cooldown`; a blocked call fails immediately
with the ledger untouched and no effect performed; a non-blocked call
records an attempt at the key, incrementing the count within the cooldown
window and resetting to `(now, 1)` otherwise; and with the default
`max_attempts = 3, cooldown = 300`, three calls at times 0, 100, 200
leave the count at 3, a fourth call at 400 is blocked without mutating
the ledger or performing an effect, and a call at 500 (≥ 300s after the
last attempt) is accepted with the counter reset to `(500, 1)`. -/
theorem cooldown_blocked_iff :
    (∀ (cfg : RemCfg) (h : AttemptHistory) (now : Int) key,
        check_cooldown cfg h now key = false ↔
          ∃ last count, h key = some (last, count) ∧
            cfg.max_attempts ≤ count ∧ now - last < cfg.cooldown) ∧
    (∀ cfg env (h : AttemptHistory) now a,
        check_cooldown cfg h now (cooldownKey a) = false →
        execute_action cfg env h now a =
          (false, "Action " ++ pyStr a.action ++ " in cooldown period", h, [])) ∧
    (∀ cfg env (h : AttemptHistory) now a,
        check_cooldown cfg h now (cooldownKey a) = true →
        (execute_action cfg env h now a).2.2.1 (cooldownKey a) =
          (match h (cooldownKey a) with
           | some (last, count) =>
             if now - last < cfg.cooldown then some (now, count + 1)
             else some (now, 1)
           | none => some (now, 1))) ∧
    (h1 (some "alert_only", ({} : Params)) = some (0, 1) ∧
     h2 (some "alert_only", ({} : Params)) = some (100, 2) ∧
     h3 (some "alert_only", ({} : Params)) = some (200, 3) ∧
     (execute_action cfg3 env0 h3 400 alertAct).1 = false ∧
     (execute_action cfg3 env0 h3 400 alertAct).2.2.1
       (some "alert_only", ({} : Params)) = some (200, 3) ∧
     (execute_action cfg3 env0 h3 400 alertAct).2.2.2 = [] ∧
     (execute_action cfg3 env0 h3 500 alertAct).1 = true ∧
     (execute_action cfg3 env0 h3 500 alertAct).2.2.1
       (some "alert_only", ({} : Params)) = some (500, 1)) := by
  refine ⟨?_, ?_, ?_, by decide⟩
  · intro cfg h now key
    unfold check_cooldown
    cases hk : h key with
    | none => simp
    | some lc =>
      obtain ⟨last, count⟩ := lc
      constructor
      · intro hb
        by_cases hcond : cfg.max_attempts ≤ count ∧ now - last < cfg.cooldown
        · exact ⟨last, count, rfl, hcond.1, hcond.2⟩
        · simp [hcond] at hb
      · rintro ⟨l, c, heq, hle, hlt⟩
        simp only [Option.some.injEq, Prod.mk.injEq] at heq
        obtain ⟨rfl, rfl⟩ := heq
        simp [hle, hlt]
  · intro cfg env h now a hb
    simp [execute_action, hb]
  · intro cfg env h now a hb
    simp [execute_action, record_attempt, hb]

/-- C3 witness: a key with three recent attempts within the window blocks
a call, which fails with the ledger untouched and no effect. -/
theorem cooldown_blocked_iff_witness :
    execute_action cfg3 env0 hBlockAlert 100 alertAct =
      (false, "Action alert_only in cooldown period", hBlockAlert, []) :=
  cooldown_blocked_iff.2.1 cfg3 env0 hBlockAlert 100 alertAct (by decide)

/-- C6 counterexample: a cooldown-blocked `alert_only` call returns
`false`, refuting "for every call of execute on alert_only the result is
(true, …)". -/
theorem alert_only_blocked_returns_false :
    (execute_action cfg3 env0 hBlockAlert 100 alertAct).1 = false := by
  decide

/-- C6 amended: every non-cooldown-blocked `execute_action` call on an
`alert_only` action returns `(true, "Alert only - no action taken")`,
performs no external effect, and still records an attempt through the
same cooldown/record logic as any other kind. -/
theorem alert_only_succeeds_no_effect :
    ∀ cfg env (h : AttemptHistory) now (a : Action),
      a.action = some "alert_only" →
      check_cooldown cfg h now (cooldownKey a) = true →
      execute_action cfg env h now a =
        (true, "Alert only - no action taken",
         record_attempt cfg h now (cooldownKey a), []) := by
  intro cfg env h now a ha hb
  simp [execute_action, dispatch_action, ha, hb]

/-- C6 witness: a fresh `alert_only` call succeeds with no effect and a
recorded attempt. -/
theorem alert_only_succeeds_no_effect_witness :
    execute_action cfg3 env0 h0 7 alertAct =
      (true, "Alert only - no action taken",
       record_attempt cfg3 h0 7 (cooldownKey alertAct), []) :=
  alert_only_succeeds_no_effect cfg3 env0 h0 7 alertAct rfl (by decide)

/-- C7: a non-blocked call on an action kind outside the fixed dispatch
set fails with the unknown-action message and no effect, yet an attempt
is recorded against the action's cooldown key (timestamped `now`). -/
theorem unknown_kind_fails_but_records :
    ∀ cfg env (h : AttemptHistory) now (a : Action),
      (∀ s, a.action = some s → s ∉ knownKinds) →
      check_cooldown cfg h now (cooldownKey a) = true →
      execute_action cfg env h now a =
        (false, "Unknown action type: " ++ pyStr a.action,
         record_attempt cfg h now (cooldownKey a), []) ∧
      ∃ c, (execute_action cfg env h now a).2.2.1 (cooldownKey a) =
        some (now, c) := by
  intro cfg env h now a hk hb
  have hd : dispatch_action env a =
      (false, "Unknown action type: " ++ pyStr a.action, []) := by
    cases ha : a.action with
    | none => simp [dispatch_action, ha]
    | some s =>
      have hs := hk s ha
      simp only [knownKinds, List.mem_cons, List.not_mem_nil, or_false,
        not_or] at hs
      obtain ⟨n1, n2, n3, n4, n5, n6, n7, n8, n9, n10⟩ := hs
      simp [dispatch_action, ha, n1, n2, n3, n4, n5, n6, n7, n8, n9, n10]
  constructor
  · simp [execute_action, hb, hd]
  · have hrec : (execute_action cfg env h now a).2.2.1 =
        record_attempt cfg h now (cooldownKey a) := by
      simp [execute_action, hb]
    rw [hrec]
    unfold record_attempt
    cases hk2 : h (cooldownKey a) with
    | none => exact ⟨1, by simp [hk2]⟩
    | some lc =>
      obtain ⟨l, c0⟩ := lc
      by_cases ht : now - l < cfg.cooldown
      · exact ⟨c0 + 1, by simp [hk2, ht]⟩
      · exact ⟨1, by simp [hk2, ht]⟩

/-- C7 witness: a `bogus` kind fails with the unknown-action message and
leaves a recorded attempt at its key. -/
theorem unknown_kind_fails_but_records_witness :
    execute_action cfg3 env0 h0 0 bogusAct =
      (false, "Unknown action type: bogus",
       record_attempt cfg3 h0 0 (cooldownKey bogusAct), []) ∧
    ∃ c, (execute_action cfg3 env0 h0 0 bogusAct).2.2.1
      (cooldownKey bogusAct) = some (0, c) :=
  unknown_kind_fails_but_records cfg3 env0 h0 0 bogusAct
    (fun s hs => by
      simp only [bogusAct, Option.some.injEq] at hs
      rw [← hs]
      decide)
    (by decide)

/-- If the dispatch chain fails without performing an effect, so does the
whole `execute_action` call (whether or not the cooldown gate blocks it). -/
theorem execute_action_fail_of_dispatch (cfg : RemCfg) (env : ExecEnv)
    (h : AttemptHistory) (now : Int) (a : Action)
    (hd : (dispatch_action env a).1 = false)
    (he : (dispatch_action env a).2.2 = []) :
    (execute_action cfg env h now a).1 = false ∧
    (execute_action cfg env h now a).2.2.2 = [] := by
  by_cases hb : check_cooldown cfg h now (cooldownKey a) = false
  · simp [execute_action, hb]
  · have hb' : check_cooldown cfg h now (cooldownKey a) = true := by
      cases hcb : check_cooldown cfg h now (cooldownKey a)
      · exact absurd hcb hb
      · rfl
    simp [execute_action, hb', hd, he]

/-- C10: for every action dict — including one with a missing kind,
missing `action_params`, or parameters with missing required fields —
`execute_action` returns a (success, message) result (the embedding is a
total function, mirroring the source's try/except guards); in particular
a missing or empty required parameter (service name, pid, container name,
mount path/source, entity/integration identifiers) yields a failure
result with no external effect performed. -/
theorem missing_params_fail :
    ∀ cfg env (h : AttemptHistory) now (a : Action),
      ((a.action = some "restart_service" ∧ falsyS a.action_params.service) →
        (execute_action cfg env h now a).1 = false ∧
        (execute_action cfg env h now a).2.2.2 = []) ∧
      ((a.action = some "kill_hung_process" ∧ falsyI a.action_params.pid) →
        (execute_action cfg env h now a).1 = false ∧
        (execute_action cfg env h now a).2.2.2 = []) ∧
      ((a.action = some "restart_container" ∧ falsyS a.action_params.container) →
        (execute_action cfg env h now a).1 = false ∧
        (execute_action cfg env h now a).2.2.2 = []) ∧
      ((a.action = some "remount" ∧
          (a.action_params.mount_config = none ∨
           ∃ c, a.action_params.mount_config = some c ∧ falsyS c.path)) →
        (execute_action cfg env h now a).1 = false ∧
        (execute_action cfg env h now a).2.2.2 = []) ∧
      ((a.action = some "unmount_remount" ∧
          (a.action_params.mount_config = none ∨
           ∃ c, a.action_params.mount_config = some c ∧
             (falsyS c.path ∨ falsyS c.source))) →
        (execute_action cfg env h now a).1 = false ∧
        (execute_action cfg env h now a).2.2.2 = []) ∧
      ((a.action = some "enable_automation" ∧
          (falsyS a.action_params.entity_id ∨ falsyS a.action_params.url ∨
           falsyS a.action_params.token)) →
        (execute_action cfg env h now a).1 = false ∧
        (execute_action cfg env h now a).2.2.2 = []) ∧
      ((a.action = some "reload_integration" ∧
          (falsyS a.action_params.integration_id ∨ falsyS a.action_params.url ∨
           falsyS a.action_params.token)) →
        (execute_action cfg env h now a).1 = false ∧
        (execute_action cfg env h now a).2.2.2 = []) ∧
      (a.action = none →
        (execute_action cfg env h now a).1 = false ∧
        (execute_action cfg env h now a).2.2.2 = []) := by
  intro cfg env h now a
  refine ⟨fun hp => ?_, fun hp => ?_, fun hp => ?_, fun hp => ?_, fun hp => ?_,
    fun hp => ?_, fun hp => ?_, fun hp => ?_⟩
  · exact execute_action_fail_of_dispatch cfg env h now a
      (by simp [dispatch_action, hp.1, restart_service, hp.2])
      (by simp [dispatch_action, hp.1, restart_service, hp.2])
  · exact execute_action_fail_of_dispatch cfg env h now a
      (by simp [dispatch_action, hp.1, kill_process, hp.2])
      (by simp [dispatch_action, hp.1, kill_process, hp.2])
  · exact execute_action_fail_of_dispatch cfg env h now a
      (by simp [dispatch_action, hp.1, restart_container, hp.2])
      (by simp [dispatch_action, hp.1, restart_container, hp.2])
  · rcases hp.2 with hc | ⟨c, hc, hpath⟩
    · exact execute_action_fail_of_dispatch cfg env h now a
        (by simp [dispatch_action, hp.1, remount, hc])
        (by simp [dispatch_action, hp.1, remount, hc])
    · exact execute_action_fail_of_dispatch cfg env h now a
        (by simp [dispatch_action, hp.1, remount, hc, hpath])
        (by simp [dispatch_action, hp.1, remount, hc, hpath])
  · rcases hp.2 with hc | ⟨c, hc, hps⟩
    · exact execute_action_fail_of_dispatch cfg env h now a
        (by simp [dispatch_action, hp.1, unmount_remount, hc])
        (by simp [dispatch_action, hp.1, unmount_remount, hc])
    · exact execute_action_fail_of_dispatch cfg env h now a
        (by simp [dispatch_action, hp.1, unmount_remount, hc, hps])
        (by simp [dispatch_action, hp.1, unmount_remount, hc, hps])
  · exact execute_action_fail_of_dispatch cfg env h now a
      (by simp [dispatch_action, hp.1, enable_automation, hp.2])
      (by simp [dispatch_action, hp.1, enable_automation, hp.2])
  · exact execute_action_fail_of_dispatch cfg env h now a
      (by simp [dispatch_action, hp.1, reload_integration, hp.2])
      (by simp [dispatch_action, hp.1, reload_integration, hp.2])
  · exact execute_action_fail_of_dispatch cfg env h now a
      (by simp [dispatch_action, hp]) (by simp [dispatch_action, hp])

/-- C10 witness: a `restart_service` action with no parameters at all
fails with no effect performed. -/
theorem missing_params_fail_witness :
    (execute_action cfg3 env0 h0 0 { action := some "restart_service" }).1 = false ∧
    (execute_action cfg3 env0 h0 0 { action := some "restart_service" }).2.2.2 = [] :=
  (missing_params_fail cfg3 env0 h0 0 { action := some "restart_service" }).1
    ⟨rfl, Or.inl rfl⟩

/-- The per-action loop pairs each action with exactly one event:
a critical-issue notification when the action is `alert_only` or auto-fix
is off (and then the executor is not invoked), otherwise an
outcome notification of its `execute_action` call; and the number of
successful actions it counts equals the number of successful-execution
events in its trace. -/
theorem exec_phase_spec (cfg : RemCfg) (env : ExecEnv) (now : Int) (af : Bool) :
    ∀ (actions : List Action) (h : AttemptHistory),
      List.Forall₂ (fun (a : Action) (e : CycleEvent) =>
        if a.action.getD "unknown" = "alert_only" ∨ af = false
        then e = CycleEvent.criticalIssue a
        else ∃ ok msg, e = CycleEvent.actionTaken a ok msg)
        actions (exec_phase cfg env now af h actions).events ∧
      (exec_phase cfg env now af h actions).taken =
        succ_count (exec_phase cfg env now af h actions).events := by
  intro actions
  induction actions with
  | nil =>
    intro h
    refine ⟨?_, ?_⟩
    · exact List.Forall₂.nil
    · simp [exec_phase, succ_count]
  | cons a rest ih =>
    intro h
    by_cases hr : a.action.getD "unknown" = "alert_only" ∨ af = false
    · have hu : exec_phase cfg env now af h (a :: rest) =
          ⟨(exec_phase cfg env now af h rest).attempts,
           (exec_phase cfg env now af h rest).taken,
           (exec_phase cfg env now af h rest).executed,
           CycleEvent.criticalIssue a ::
             (exec_phase cfg env now af h rest).events⟩ := by
        simp [exec_phase, hr]
      rw [hu]
      refine ⟨?_, ?_⟩
      · exact List.Forall₂.cons (by simp [hr]) (ih h).1
      · simp only [succ_count, List.filter_cons]
        exact (ih h).2
    · have hu : exec_phase cfg env now af h (a :: rest) =
          ⟨(exec_phase cfg env now af (execute_action cfg env h now a).2.2.1 rest).attempts,
           (if (execute_action cfg env h now a).1 then
              (exec_phase cfg env now af (execute_action cfg env h now a).2.2.1 rest).taken + 1
            else
              (exec_phase cfg env now af (execute_action cfg env h now a).2.2.1 rest).taken),
           (if (execute_action cfg env h now a).1 then
              a :: (exec_phase cfg env now af (execute_action cfg env h now a).2.2.1 rest).executed
            else
              (exec_phase cfg env now af (execute_action cfg env h now a).2.2.1 rest).executed),
           CycleEvent.actionTaken a (execute_action cfg env h now a).1
               (execute_action cfg env h now a).2.1 ::
             (exec_phase cfg env now af (execute_action cfg env h now a).2.2.1 rest).events⟩ := by
        simp [exec_phase, hr]
      rw [hu]
      refine ⟨?_, ?_⟩
      · exact List.Forall₂.cons
          (by
            rw [if_neg hr]
            exact ⟨(execute_action cfg env h now a).1,
              (execute_action cfg env h now a).2.1, rfl⟩)
          (ih _).1
      · cases hb : (execute_action cfg env h now a).1 with
        | false =>
          simp only [hb, if_false, succ_count, List.filter_cons]
          exact (ih _).2
        | true =>
          simp only [hb, if_true, succ_count, List.filter_cons]
          simp only [succ_count] at ih
          rw [(ih _).2]
          simp [List.length_cons]

/-- C5: in a cycle whose decision produced a non-empty action list, every
action that is `alert_only` or encountered with auto-fix off yields
exactly a critical-issue notification (and is never passed to the
remediation executor), every other action yields an executor-outcome
notification, and `actions_taken` grows by exactly the number of
successful executions. -/
theorem executing_phase_routing :
    ∀ cfg st inp actions, inp.decision = Except.ok actions →
      inp.results.filter is_issue ≠ [] → actions ≠ [] →
      ∃ evs, (run_monitoring_cycle cfg st inp).2 =
          CycleEvent.issueDetected (inp.results.filter is_issue) :: evs ∧
        List.Forall₂ (fun (a : Action) (e : CycleEvent) =>
          if a.action.getD "unknown" = "alert_only" ∨ st.auto_fix = false
          then e = CycleEvent.criticalIssue a
          else ∃ ok msg, e = CycleEvent.actionTaken a ok msg) actions evs ∧
        (run_monitoring_cycle cfg st inp).1.daily.actions_taken =
          st.daily.actions_taken + succ_count evs := by
  intro cfg st inp actions hdec hiss hact
  have hie : (inp.results.filter is_issue).isEmpty = false := by
    cases hfe : inp.results.filter is_issue with
    | nil => exact absurd hfe hiss
    | cons x xs => rfl
  have hae : actions.isEmpty = false := by
    cases actions with
    | nil => exact absurd rfl hact
    | cons x xs => rfl
  refine ⟨(exec_phase cfg inp.env inp.now st.auto_fix st.attempts actions).events,
    ?_, ?_, ?_⟩
  · simp [run_monitoring_cycle, hie, hdec, hae]
  · exact (exec_phase_spec cfg inp.env inp.now st.auto_fix actions st.attempts).1
  · have ht := (exec_phase_spec cfg inp.env inp.now st.auto_fix actions st.attempts).2
    simp [run_monitoring_cycle, hie, hdec, hae, ht]

/-- C5 witness: with auto-fix on, one unhealthy record and the decided
actions `[alert_only, bogus]`, the cycle's trace routes the first to the
critical sink and the second to the executor. -/
theorem executing_phase_routing_witness :
    ∃ evs, (run_monitoring_cycle cfg3 stW inpW).2 =
        CycleEvent.issueDetected (inpW.results.filter is_issue) :: evs ∧
      List.Forall₂ (fun (a : Action) (e : CycleEvent) =>
        if a.action.getD "unknown" = "alert_only" ∨ stW.auto_fix = false
        then e = CycleEvent.criticalIssue a
        else ∃ ok msg, e = CycleEvent.actionTaken a ok msg)
        [alertAct, bogusAct] evs ∧
      (run_monitoring_cycle cfg3 stW inpW).1.daily.actions_taken =
        stW.daily.actions_taken + succ_count evs :=
  executing_phase_routing cfg3 stW inpW [alertAct, bogusAct] rfl
    (by decide) (by decide)

/-- C2 amended: with a non-empty unhealthy set, a failing backend call
makes `analyze_issues` return exactly the fallback rule engine's output
on those issues (the backend outcome is consumed once, so no retry); a
backend response whose payload is not decodable JSON yields the empty
action list without invoking the fallback; a decoded JSON list is
returned as is; and a decoded non-list JSON value is normalized into a
one-element list rather than yielding the empty list. -/
theorem analyze_error_vs_malformed :
    ∀ results allowed, results.filter is_issue ≠ [] →
      (analyze_issues results allowed (Except.error ()) =
        (fallback_analysis (results.filter is_issue) allowed).map Action.toJson) ∧
      (analyze_issues results allowed (Except.ok none) = []) ∧
      (∀ xs, analyze_issues results allowed (Except.ok (some (Json.jarr xs))) = xs) ∧
      (∀ v, (∀ xs, v ≠ Json.jarr xs) →
        analyze_issues results allowed (Except.ok (some v)) = [v]) := by
  intro results allowed hne
  have hie : (results.filter is_issue).isEmpty = false := by
    cases hfe : results.filter is_issue with
    | nil => exact absurd hfe hne
    | cons x xs => rfl
  refine ⟨?_, ?_, ?_, ?_⟩
  · simp [analyze_issues, hie]
  · simp [analyze_issues, hie, parse_ai_response]
  · intro xs
    simp [analyze_issues, hie, parse_ai_response]
  · intro v hv
    cases v with
    | jarr xs => exact absurd rfl (hv xs)
    | jnull => simp [analyze_issues, hie, parse_ai_response]
    | jbool b => simp [analyze_issues, hie, parse_ai_response]
    | jnum n => simp [analyze_issues, hie, parse_ai_response]
    | jstr s => simp [analyze_issues, hie, parse_ai_response]
    | jobj kvs => simp [analyze_issues, hie, parse_ai_response]

/-- C2 witness: with one unhealthy record, a raising backend yields the
fallback output and an undecodable response yields the empty list. -/
theorem analyze_error_vs_malformed_witness :
    analyze_issues [recPing] [] (Except.error ()) =
      (fallback_analysis ([recPing].filter is_issue) []).map Action.toJson ∧
    analyze_issues [recPing] [] (Except.ok none) = [] :=
  ⟨(analyze_error_vs_malformed [recPing] [] (by decide)).1,
   (analyze_error_vs_malformed [recPing] [] (by decide)).2.1⟩

/-- C2 counterexample: a backend payload that decodes to the JSON number
5 — valid JSON of the wrong type for an Action list — makes
`analyze_issues` return the non-empty list `[5]`, not the empty list the
claim requires, even though the fallback engine would have produced a
non-empty action list for the same issues. -/
theorem analyze_wrong_type_not_empty :
    analyze_issues [recPing] [] (Except.ok (some (Json.jnum 5))) =
      [Json.jnum 5] ∧
    [Json.jnum 5] ≠ ([] : List Json) ∧
    fallback_analysis [recPing] [] ≠ [] :=
  ⟨rfl, by simp, by decide⟩

/-- C4: the fallback rule engine maps each unhealthy record through the
fixed first-match rule table — `service_status` → `restart_service`
(params `{service}`, severity high) only if allowed, else no action;
`disk_usage` with value > 90 → `clear_disk_space` (params `{partition}`,
severity high) only if allowed, else no action; `network_ping` →
`alert_only` medium; `web_endpoint` → `alert_only` high; `mount_status`
with issue `stale_mount`/`not_mounted` → `remount`/`unmount_remount`
(params `{mount_config}`, severity high) when allowed, otherwise
`alert_only` high — and processes records independently in order. -/
theorem fallback_rule_table :
    ∀ (r : HealthRecord) (allowed : List String),
      ((r.metric = some "service_status" ∧ "restart_service" ∈ allowed) →
        fallback_analysis [r] allowed =
          [⟨r.message, some "high", some "Service is not running",
            some "restart_service", { service := r.service },
            some "Service is inactive, attempting restart"⟩]) ∧
      ((r.metric = some "service_status" ∧ "restart_service" ∉ allowed) →
        fallback_analysis [r] allowed = []) ∧
      ((r.metric = some "disk_usage" ∧ 90 < r.value.getD 0 ∧
          "clear_disk_space" ∈ allowed) →
        fallback_analysis [r] allowed =
          [⟨r.message, some "high", some "Disk space critically low",
            some "clear_disk_space", { partition := r.partition },
            some "Clear temporary files and logs to free disk space"⟩]) ∧
      ((r.metric = some "disk_usage" ∧
          ¬(90 < r.value.getD 0 ∧ "clear_disk_space" ∈ allowed)) →
        fallback_analysis [r] allowed = []) ∧
      ((r.metric = some "network_ping") →
        fallback_analysis [r] allowed =
          [⟨r.message, some "medium", some "Network connectivity issue",
            some "alert_only", {},
            some "Network issues require investigation"⟩]) ∧
      ((r.metric = some "web_endpoint") →
        fallback_analysis [r] allowed =
          [⟨r.message, some "high", some "Web service not responding",
            some "alert_only", {},
            some "Endpoint check required before automated action"⟩]) ∧
      ((r.metric = some "mount_status" ∧ r.issue = some "stale_mount" ∧
          "remount" ∈ allowed) →
        fallback_analysis [r] allowed =
          [⟨r.message, some "high",
            some "Stale or hung mount (common with NFS)",
            some "remount", { mount_config := r.config },
            some "Remount to recover stale NFS/network mount"⟩]) ∧
      ((r.metric = some "mount_status" ∧ r.issue = some "not_mounted" ∧
          "unmount_remount" ∈ allowed) →
        fallback_analysis [r] allowed =
          [⟨r.message, some "high", some "Mount not active",
            some "unmount_remount", { mount_config := r.config },
            some "Unmount and remount to restore mount"⟩]) ∧
      ((r.metric = some "mount_status" ∧
          ¬(r.issue = some "stale_mount" ∧ "remount" ∈ allowed) ∧
          ¬(r.issue = some "not_mounted" ∧ "unmount_remount" ∈ allowed)) →
        fallback_analysis [r] allowed =
          [⟨r.message, some "high", some "Mount issue", some "alert_only",
            {}, some "Mount requires investigation"⟩]) ∧
      (∀ l1 l2 : List HealthRecord,
        fallback_analysis (l1 ++ l2) allowed =
          fallback_analysis l1 allowed ++ fallback_analysis l2 allowed) := by
  intro r allowed
  refine ⟨fun hp => ?_, fun hp => ?_, fun hp => ?_, fun hp => ?_, fun hp => ?_,
    fun hp => ?_, fun hp => ?_, fun hp => ?_, fun hp => ?_, ?_⟩
  · simp [fallback_analysis, fallback_for, hp.1, hp.2]
  · simp [fallback_analysis, fallback_for, hp.1, hp.2]
  · simp [fallback_analysis, fallback_for, hp.1, hp.2.1, hp.2.2]
  · simp [fallback_analysis, fallback_for, hp.1, hp.2]
  · simp [fallback_analysis, fallback_for, hp]
  · simp [fallback_analysis, fallback_for, hp]
  · simp [fallback_analysis, fallback_for, hp.1, hp.2.1, hp.2.2]
  · simp [fallback_analysis, fallback_for, hp.1, hp.2.1, hp.2.2]
  · simp [fallback_analysis, fallback_for, hp.1, hp.2.1, hp.2.2]
  · intro l1 l2
    induction l1 with
    | nil => rfl
    | cons x xs ihx =>
      show fallback_for allowed x ++ fallback_analysis (xs ++ l2) allowed =
        (fallback_for allowed x ++ fallback_analysis xs allowed) ++
          fallback_analysis l2 allowed
      rw [ihx, List.append_assoc]

/-- C4 witness (Scenario A): an unhealthy nginx `service_status` record
with allow-list `["restart_service"]` yields exactly the restart action
with params `{service: nginx}` and severity high. -/
theorem fallback_rule_table_witness :
    fallback_analysis [recNginx] ["restart_service"] =
      [⟨some "nginx inactive", some "high", some "Service is not running",
        some "restart_service", { service := some "nginx" },
        some "Service is inactive, attempting restart"⟩] :=
  (fallback_rule_table recNginx ["restart_service"]).1 ⟨rfl, by decide⟩

/-- C1: evaluation of the code at the failing input. A forced
`run_manual_check` whose cycle finds no unhealthy records (so nothing is
appended) still returns the issues of the pre-existing last history
entry — a stale, non-empty issues list — where the claim requires empty
issues/actions lists from that run. -/
theorem manual_check_returns_stale :
    inpHealthy.results.filter is_issue = [] ∧
    (run_manual_check cfg3 stStale inpHealthy).2.1.history = [staleEntry] ∧
    (run_manual_check cfg3 stStale inpHealthy).1.issues = [recPing] ∧
    [recPing] ≠ ([] : List HealthRecord) := by
  decide

end NetMon
